import Mathlib

/-!
Verification of the turtle-soup game plugin (src/main.py) against its
natural-language specification.

The Python source is shallowly embedded: strings are Lean `String`s whose
operations are defined structurally over their character lists (so that the
kernel can evaluate them); the mutable session dictionary is a function
`String → Option GameState`; the `random.choice` calls and the suspending
reasoning-service calls are abstracted as explicit oracles passed to each
handler, so that a concrete oracle corresponds to one possible run.
-/

namespace TurtleSoup

/-! ### Python string primitives -/

/-- Whitespace characters recognised by Python `str.strip` / `str.split`
(the ASCII fragment; the source data contains no exotic Unicode spaces). -/
def isPySpace (c : Char) : Bool :=
  c = ' ' || c = '\t' || c = '\n' || c = '\r' || c = '\x0b' || c = '\x0c'

/-- Drop the longest run of whitespace at the head of a character list. -/
def dropLeadingWs : List Char → List Char
  | [] => []
  | c :: rest => if isPySpace c then dropLeadingWs rest else c :: rest

/-- Python `str.strip()`: remove whitespace at both ends. -/
def pyStrip (s : String) : String :=
  ⟨(dropLeadingWs (dropLeadingWs s.data.reverse).reverse)⟩

/-- Python `str.lower()`, modelled on ASCII letters; all other characters
(in particular the CJK characters used throughout the source) are unchanged
by `lower` and map to themselves. -/
def charLower (c : Char) : Char :=
  if 'A' ≤ c && c ≤ 'Z' then Char.ofNat (c.toNat + 32) else c

/-- Python `str.lower()` on a whole string. -/
def pyLower (s : String) : String := ⟨s.data.map charLower⟩

/-- Python `len` of a string (number of characters). -/
def pyLen (s : String) : Nat := s.data.length

/-- A one-character string (the elements Python yields when iterating a string). -/
def chStr (c : Char) : String := ⟨[c]⟩

/-- `listIsPre pre l` is true iff `pre` is a prefix of `l`. -/
def listIsPre : List Char → List Char → Bool
  | [], _ => true
  | _ :: _, [] => false
  | p :: ps, c :: cs => p = c && listIsPre ps cs

/-- Python substring containment `sub in s`, on character lists. -/
def containsSub (needle : List Char) : List Char → Bool
  | [] => needle.isEmpty
  | c :: rest => listIsPre needle (c :: rest) || containsSub needle rest

/-- Python `sub in s` on strings. -/
def strContains (s sub : String) : Bool := containsSub sub.data s.data

/-- Python `s.startswith(p)`. -/
def strStartsWith (s p : String) : Bool := listIsPre p.data s.data

/-- Worker for `pySplitWs`: split on runs of whitespace, discarding empties,
carrying the (reversed) current word. -/
def splitWsGo : List Char → List Char → List String
  | [], acc => if acc.isEmpty then [] else [⟨acc.reverse⟩]
  | c :: rest, acc =>
    if isPySpace c then
      if acc.isEmpty then splitWsGo rest [] else ⟨acc.reverse⟩ :: splitWsGo rest []
    else splitWsGo rest (c :: acc)

/-- Python `str.split()` with no separator: split on whitespace runs,
no empty strings in the result. -/
def pySplitWs (s : String) : List String := splitWsGo s.data []

/-- Take the longest non-whitespace run at the head of a list, returning it
together with the remainder. -/
def spanNonWs : List Char → List Char × List Char
  | [] => ([], [])
  | c :: rest =>
    if isPySpace c then ([], c :: rest)
    else
      let (w, r) := spanNonWs rest
      (c :: w, r)

/-- Python `str.split(maxsplit=1)` with no separator: first whitespace-delimited
word, then the remainder with its leading whitespace removed (kept verbatim
otherwise); trailing pure whitespace yields no second element. -/
def pySplitWsOnce (s : String) : List String :=
  match dropLeadingWs s.data with
  | [] => []
  | c :: rest =>
    let (w, r) := spanNonWs (c :: rest)
    match dropLeadingWs r with
    | [] => [⟨w⟩]
    | d :: rest2 => [⟨w⟩, ⟨d :: rest2⟩]

/-- Worker for `pySplitChar`: split at every occurrence of a single character,
keeping empty segments (Python `str.split(sep)` semantics). -/
def splitCharGo (sep : Char) : List Char → List Char → List String
  | [], acc => [⟨acc.reverse⟩]
  | c :: rest, acc =>
    if c = sep then ⟨acc.reverse⟩ :: splitCharGo sep rest []
    else splitCharGo sep rest (c :: acc)

/-- Python `str.split(sep)` for a one-character separator. -/
def pySplitChar (s : String) (sep : Char) : List String := splitCharGo sep s.data []

/-- Python `str.split(sep, 1)` for a one-character separator: `none` when the
separator does not occur. -/
def splitOnceChar (sep : Char) : List Char → Option (List Char × List Char)
  | [] => none
  | c :: rest =>
    if c = sep then some ([], rest)
    else (splitOnceChar sep rest).map (fun p => (c :: p.1, p.2))

/-- Worker for `pySplitStr`: fuel-driven left-to-right scan splitting at each
non-overlapping occurrence of a (non-empty) separator.  The fuel is set to the
string length plus one, which always suffices since each step consumes at
least one character. -/
def splitSubGo (sep : List Char) : Nat → List Char → List Char → List String
  | 0, s, acc => [⟨acc.reverse ++ s⟩]
  | fuel + 1, s, acc =>
    match s with
    | [] => [⟨acc.reverse⟩]
    | c :: rest =>
      if listIsPre sep s then
        ⟨acc.reverse⟩ :: splitSubGo sep fuel (s.drop sep.length) []
      else splitSubGo sep fuel rest (c :: acc)

/-- Python `str.split(sep)` for a multi-character separator. -/
def pySplitStr (s : String) (sep : String) : List String :=
  splitSubGo sep.data (s.data.length + 1) s.data []

/-- Value of a non-empty all-ASCII-digit character list. -/
def digitsVal : List Char → Option Nat
  | [] => none
  | [c] => if c.isDigit then some (c.toNat - '0'.toNat) else none
  | c :: rest =>
    if c.isDigit then
      (digitsVal rest).map (fun n => (c.toNat - '0'.toNat) * 10 ^ rest.length + n)
    else none

/-- Python `int(str)`: strips whitespace, accepts an optional sign followed by
decimal digits, raises (here: `none`) otherwise.  Underscore digit grouping is
not modelled; no input in this development uses it. -/
def pyInt (s : String) : Option Int :=
  match (pyStrip s).data with
  | '-' :: rest => (digitsVal rest).map (fun n => -(n : Int))
  | '+' :: rest => (digitsVal rest).map (fun n => (n : Int))
  | l => (digitsVal l).map (fun n => (n : Int))

/-- Python `str.zfill(width)`: left-pad with zeros to `width`, keeping a
leading sign in front of the padding. -/
def pyZfill (s : String) (width : Nat) : String :=
  match s.data with
  | [] => ⟨List.replicate width '0'⟩
  | c :: rest =>
    if c = '+' || c = '-' then
      ⟨c :: (List.replicate (width - 1 - rest.length) '0' ++ rest)⟩
    else ⟨List.replicate (width - s.data.length) '0' ++ s.data⟩

/-! ### Python dict primitives (for the per-block `question_info` dict) -/

/-- Python dict assignment `d[k] = v`: replace the value in place if the key is
present, otherwise append a new entry. -/
def dinsert {α : Type} : List (String × α) → String → α → List (String × α)
  | [], k, v => [(k, v)]
  | (k', v') :: rest, k, v =>
    if k' = k then (k, v) :: rest else (k', v') :: dinsert rest k v

/-- Python dict lookup `d.get(k)`. -/
def dget {α : Type} : List (String × α) → String → Option α
  | [], _ => none
  | (k', v') :: rest, k => if k' = k then some v' else dget rest k

/-! ### AnswerChecker fallback (`_simple_answer_check`, src lines 576-605) -/

/-- The fixed stop-word set of `_simple_answer_check`. -/
def stopWords : List String :=
  ["的", "了", "是", "在", "和", "与", "或", "但", "然后", "因为", "所以",
   "这", "那", "一个", "就", "也", "都"]

/-- One step of the keyword-extraction loop of `_simple_answer_check`: insert
`w` into the set `ws` when it is longer than one character and not a stop word
(list-with-dedup models the Python set). -/
def addAnswerWord (ws : List String) (w : String) : List String :=
  if pyLen w > 1 && !(stopWords.contains w) then
    if ws.contains w then ws else ws ++ [w]
  else ws

/-- Direct embedding of `_simple_answer_check`.  Note that the source iterates
`for word in answer_lower` over the *string* `answer_lower`, so each `word` is
a single character; the set insertion and the final ratio test are modelled
exactly (the float comparison `match_ratio >= 0.5` is the exact test
`2 * match_count ≥ total_key_words`, which agrees with the source whenever the
division is performed at all). -/
def simpleAnswerCheck (player_guess answer : String) : Bool :=
  let guess_lower := pyLower player_guess
  let answer_lower := pyLower answer
  let answer_words : List String := (answer_lower.data.map chStr).foldl addAnswerWord []
  let match_count := (answer_words.filter (fun w => strContains guess_lower w)).length
  let total_key_words := answer_words.length
  if total_key_words > 0 then decide (2 * match_count ≥ total_key_words)
  else false

/-! ### JudgeAdapter normalization (`_validate_ai_response`, src lines 522-545)
and keyword fallback (`_simple_judge`, lines 547-552) -/

/-- The closed answer vocabulary, in the priority order of the source
(是 = yes, 否 = no, 无关 = unrelated, 请重新提问 = ask-again,
很接近了 = very-close, 你猜对了一部分 = partially-correct). -/
def validResponses : List String :=
  ["是", "否", "无关", "请重新提问", "很接近了", "你猜对了一部分"]

/-- Direct embedding of `_validate_ai_response`. -/
def validateAiResponse (ai_response : String) : String :=
  let response := pyStrip ai_response
  match validResponses.find? (fun v => strContains response v) with
  | some v => v
  | none =>
    if ["不对", "错误", "不是", "不"].any (fun w => strContains response w) then "否"
    else if ["对", "正确", "没错", "是的"].any (fun w => strContains response w) then "是"
    else if ["无关", "不相关", "没关系"].any (fun w => strContains response w) then "无关"
    else "请重新提问"

/-- Direct embedding of `_simple_judge`: yes iff any whitespace-token of the
answer occurs verbatim in the question. -/
def simpleJudge (player_question answer : String) : String :=
  if (pySplitWs answer).any (fun keyword => strContains player_question keyword) then "是"
  else "否"

/-! ### Question bank parsing (`_parse_question_block` lines 156-180,
`_parse_questions_bank` lines 125-154) -/

structure Metadata where
  id : String
  title : String
  difficulty : Int
  tags : List String
deriving DecidableEq

structure QuestionRecord where
  question : String
  answer : String
  metadata : Metadata
deriving DecidableEq

/-- The `question_info` dict a block is folded into: each stripped line that
contains a colon and does not start with `#` contributes its first-colon split
as a key/value pair (later lines override earlier ones, as for a dict). -/
def blockInfo (block : String) : List (String × String) :=
  (pySplitChar block '\n').foldl
    (fun info rawLine =>
      let line := pyStrip rawLine
      if strContains line ":" && !(strStartsWith line "#") then
        match splitOnceChar ':' line.data with
        | some (k, v) => dinsert info (pyStrip ⟨k⟩) (pyStrip ⟨v⟩)
        | none => info
      else info) []

/-- The tag list `[tag.strip() for tag in s.split(',') if tag.strip()]`. -/
def parseTags (s : String) : List String :=
  ((pySplitChar s ',').map pyStrip).filter (fun t => t ≠ "")

/-- Direct embedding of `_parse_question_block`: requires the keys ID, 汤面
(story) and 汤底 (solution); a `ValueError` from `int` on the 难度
(difficulty) value yields `none` (the record is dropped with a warning). -/
def parseQuestionBlock (block : String) : Option QuestionRecord :=
  let info := blockInfo block
  if (dget info "ID").isSome && (dget info "汤面").isSome && (dget info "汤底").isSome then
    match pyInt ((dget info "难度").getD "3") with
    | some d =>
      some { question := (dget info "汤面").getD ""
             answer := (dget info "汤底").getD ""
             metadata :=
               { id := (dget info "ID").getD ""
                 title := (dget info "标题").getD ""
                 difficulty := d
                 tags := parseTags ((dget info "标签").getD "") } }
    | none => none
  else none

/-- One iteration of the block loop of `_parse_questions_bank`: skip empty or
comment blocks, append a successfully parsed record, drop a failed one. -/
def bankStep (qs : List QuestionRecord) (rawBlock : String) : List QuestionRecord :=
  let block := pyStrip rawBlock
  if block = "" || strStartsWith block "#" then qs
  else
    match parseQuestionBlock block with
    | some q => qs ++ [q]
    | none => qs

/-- Direct embedding of the parsing loop of `_parse_questions_bank` on given
file content (the file-system error paths fall back to a built-in bank and are
outside this pure function). -/
def parseQuestionsBank (content : String) : List QuestionRecord :=
  (pySplitStr (pyStrip content) "---").foldl bankStep []

/-! ### Session data model

`GameSession` dictionaries of the source become `GameState`; the global
`self.game_states` dict becomes a function `Store`.  The `controller` field
(set by the session waiter on the first turn) is modelled by the flag
`hasController`; `controller.keep(... reset_timeout=True)` and
`controller.stop()` become the effects `Eff.timerReset` / `Eff.timerCancel`.
Messages sent to the user become `Eff.send` of a `Msg` carrying exactly the
data interpolated into the source template. -/

structure ChatTurn where
  role : String
  content : String
deriving DecidableEq

structure GameState where
  question : String
  answer : String
  metadata : Metadata
  question_count : Nat
  llm_conversation_context : List ChatTurn
  hasController : Bool
deriving DecidableEq

/-- The session registry `self.game_states`, as a map from session key. -/
def Store : Type := String → Option GameState

/-- `self.game_states[key] = v` (in-place mutation of the entry included). -/
def Store.set (s : Store) (k : String) (v : GameState) : Store :=
  fun k' => if k' = k then some v else s k'

/-- `self.game_states.pop(key, None)`. -/
def Store.del (s : Store) (k : String) : Store :=
  fun k' => if k' = k then none else s k'

/-- The two configuration parameters and the loaded question bank. -/
structure Env where
  session_timeout : Nat
  max_questions : Nat
  questions_bank : List QuestionRecord

/-- Abstraction of the reasoning service for one turn: whether a provider is
configured, and the raw completion text of each of the two possible calls
(`none` models the call raising an exception). -/
structure Oracle where
  llm : Bool
  answerReply : Option String
  judgeReply : Option String

/-- The response templates of the source, each carrying the data interpolated
into it.  `formatError` is the 题号格式错误 notice of the unreachable
`except` branch in `start_turtle_soup`. -/
inductive Msg where
  | gameInProgress
  | disclaimer (max_questions session_timeout : Nat)
  | noPreset
  | notFound (qid : String)
  | formatError
  | intro (id title : String) (difficulty : Int) (question : String) (max_questions : Nat)
  | noAiProvider
  | emptyQuestion
  | stateError
  | checkingAnswer
  | correctAnswer (answer : String) (question_count : Nat) (tags : List String)
  | outOfQuestions (max_questions : Nat) (answer : String) (tags : List String)
  | roundResult (question_count : Nat) (player_question ai_answer : String) (remaining : Nat)
  | aiError
  | endSummary (answer : String) (tags : List String) (question_count : Nat)
  | forceEnded
  | noGame
  | revealMsg (id title question answer : String) (question_count : Nat)
  | changeSuccess (id title : String) (difficulty : Int) (question : String) (max_questions : Nat)
  | changeFail
  | helpMsg (max_questions session_timeout : Nat)
  | adminCleared
deriving DecidableEq

/-- Observable effects of one handler invocation, in order. -/
inductive Eff where
  | send (m : Msg)
  | timerReset
  | timerCancel
deriving DecidableEq

/-- The system-framing turn seeded into the conversation context
(`hint_system_prompt.format(question=..., answer=...)`).  The fixed rule text
is abbreviated to a stub: the claims depend only on the fact that the seeded
turn is bound to the current question and answer. -/
def hintSystemPrompt (question answer : String) : String :=
  "海龟汤出题规则\n当前题目：" ++ question ++ "\n答案：" ++ answer

/-- Direct embedding of `_cleanup_game_session` (src lines 487-495). -/
def cleanupGameSession (store : Store) (key : String) : Store × List Eff :=
  match store key with
  | some gs => (store.del key, if gs.hasController then [Eff.timerCancel] else [])
  | none => (store, [])

/-- Direct embedding of `_get_question_and_answer` (src lines 471-485).
`random.choice` is modelled by the index oracle `rpick` reduced modulo the
bank size; every possible random draw corresponds to some `rpick`.  The
`(None, None, {})` returns of the source become `none`. -/
def getQuestionAndAnswer (bank : List QuestionRecord) (qid : Option String)
    (rpick : Nat) : Option QuestionRecord :=
  if bank.isEmpty then none
  else
    match qid with
    | some q => bank.find? (fun r => r.metadata.id = q)
    | none => bank.get? (rpick % bank.length)

/-- Python truthiness test `question and answer` on the result of
`_get_question_and_answer`: both strings non-empty. -/
def qaOk : Option QuestionRecord → Bool
  | some r => !(r.question = "") && !(r.answer = "")
  | none => false

/-- Direct embedding of `_is_answer_correct` (src lines 554-574): with a
provider, the verdict is `'是' in response_text`; a raised service call
(`answerReply = none`) falls back to the heuristic, as does the no-provider
path. -/
def isAnswerCorrect (o : Oracle) (player_guess answer : String) : Bool :=
  if o.llm then
    match o.answerReply with
    | some t => strContains (pyStrip t) "是"
    | none => simpleAnswerCheck player_guess answer
  else simpleAnswerCheck player_guess answer

/-- Direct embedding of `_get_ai_judge_response` (src lines 497-520): without a
provider, the keyword fallback; with one, the user turn is appended, then the
service reply is normalized and appended as the assistant turn.  A raised call
(`judgeReply = none`) leaves the user turn appended and propagates the
exception (`none`) to the caller. -/
def getAiJudgeResponse (o : Oracle) (player_question : String) (gs : GameState) :
    GameState × Option String :=
  if o.llm then
    let gs1 := { gs with llm_conversation_context :=
      gs.llm_conversation_context ++ [⟨"user", player_question⟩] }
    match o.judgeReply with
    | none => (gs1, none)
    | some raw =>
      let ai := validateAiResponse (pyStrip raw)
      ({ gs1 with llm_conversation_context :=
          gs1.llm_conversation_context ++ [⟨"assistant", ai⟩] }, some ai)
  else (gs, some (simpleJudge player_question gs.answer))

/-- The assertive-marker list of the guess heuristic (src line 678). -/
def guessKeywords : List String :=
  ["答案是", "真相是", "因为", "所以", "是因为", "原因是", "我觉得是", "我认为是",
   "应该是", "一定是", "肯定是"]

/-- Direct embedding of the `is_a_guess` classification (src lines 679-681). -/
def isAGuess (question : String) : Bool :=
  guessKeywords.any (fun k => strContains question k) ||
  (decide (pyLen question > 25) &&
    ["导致", "造成", "结果", "发生了", "事实是"].any (fun w => strContains question w)) ||
  (strContains question "是" && decide (pyLen question > 15) &&
    ["死", "杀", "害", "做", "发生"].any (fun w => strContains question w))

/-- Direct embedding of `_handle_turtle_soup_question` (src lines 660-745).
The mid-await re-checks `if session_key not in self.game_states` of the source
guard against concurrent removal; in this sequential model the session is
still present at those points, so they always pass. -/
def handleTurtleSoupQuestion (env : Env) (o : Oracle) (store : Store) (key : String)
    (question : String) : Store × List Eff :=
  match store key with
  | none => (store, [Eff.send Msg.stateError])
  | some gs =>
    let eff0 : List Eff := if gs.hasController then [Eff.timerReset] else []
    let gs1 := { gs with question_count := gs.question_count + 1 }
    let store1 := store.set key gs1
    let effPre := if isAGuess question then eff0 ++ [Eff.send Msg.checkingAnswer] else eff0
    if isAGuess question && isAnswerCorrect o question gs1.answer then
      let cu := cleanupGameSession store1 key
      (cu.1, effPre ++ [Eff.send (Msg.correctAnswer gs1.answer gs1.question_count
        gs1.metadata.tags)] ++ cu.2)
    else if gs1.question_count > env.max_questions then
      let cu := cleanupGameSession store1 key
      (cu.1, effPre ++ [Eff.send (Msg.outOfQuestions env.max_questions gs1.answer
        gs1.metadata.tags)] ++ cu.2)
    else
      let jr := getAiJudgeResponse o question gs1
      let store2 := store1.set key jr.1
      match jr.2 with
      | none => (store2, effPre ++ [Eff.send Msg.aiError])
      | some aiAnswer =>
        (store2, effPre ++ [Eff.send (Msg.roundResult gs1.question_count question
          aiAnswer (env.max_questions - gs1.question_count))])

/-- Direct embedding of `start_turtle_soup` (src lines 212-310), up to the
session-waiter machinery (timeout/crash cleanup), which is driven by the
external framework and not part of one start invocation.  The source computes
`message_parts[1].zfill(3)` inside a `try/except (ValueError, IndexError)`
whose handler sends the format-error notice; `str.zfill` never raises and the
index access is guarded by the length test, so the handler is unreachable and
the id is computed directly. -/
def startTurtleSoup (env : Env) (o : Oracle) (rpick : Nat) (store : Store)
    (key : String) (message_str : String) : Store × List Eff :=
  if (store key).isSome then (store, [Eff.send Msg.gameInProgress])
  else
    let specified_question_id : Option String :=
      match pySplitWs message_str with
      | _ :: p :: _ => some (pyZfill p 3)
      | _ => none
    let eff1 : List Eff := [Eff.send (Msg.disclaimer env.max_questions env.session_timeout)]
    let qa := getQuestionAndAnswer env.questions_bank specified_question_id rpick
    let failEff := eff1 ++ [Eff.send (match specified_question_id with
      | some q => Msg.notFound q
      | none => Msg.noPreset)]
    match qa with
    | none => (store, failEff)
    | some r =>
      if r.question = "" || r.answer = "" then (store, failEff)
      else
        let gs0 : GameState :=
          { question := r.question
            answer := r.answer
            metadata := r.metadata
            question_count := 0
            llm_conversation_context := []
            hasController := false }
        let store1 := store.set key gs0
        let eff2 := eff1 ++ [Eff.send (Msg.intro r.metadata.id r.metadata.title
          r.metadata.difficulty r.question env.max_questions)]
        if !o.llm then (store1, eff2 ++ [Eff.send Msg.noAiProvider])
        else
          (store1.set key { gs0 with llm_conversation_context :=
            [⟨"system", hintSystemPrompt r.question r.answer⟩] }, eff2)

/-- One sample of the change-question retry loop: the `self._get_question_and_answer()`
call of iteration `i`, with the random draw given by `sampler i`. -/
def changeSample (bank : List QuestionRecord) (sampler : Nat → Nat) (i : Nat) :
    Option QuestionRecord :=
  getQuestionAndAnswer bank none (sampler i)

/-- The break condition of the retry loop:
`new_question and new_answer and new_question != current_question`. -/
def breakCond (current : String) : Option QuestionRecord → Bool
  | some r => !(r.question = "") && !(r.answer = "") && !(r.question = current)
  | none => false

/-- The retry loop of `change_question` (src lines 818-825):
`while attempts < max_attempts` sampling at attempts `i, i+1, ...` with `fuel`
iterations remaining.  Whether the loop breaks at its final iteration or
exhausts the budget, the loop variables afterwards hold the last sample, which
is what this function returns; the `fuel = 0` case is never reached from
`changeLoopResult`. -/
def changeLoopGo (bank : List QuestionRecord) (sampler : Nat → Nat) (current : String) :
    Nat → Nat → Option QuestionRecord
  | i, 0 => changeSample bank sampler i
  | i, 1 => changeSample bank sampler i
  | i, fuel + 2 =>
    let s := changeSample bank sampler i
    if breakCond current s then s
    else changeLoopGo bank sampler current (i + 1) (fuel + 1)

/-- The value of `(new_question, new_answer, new_metadata)` after the retry
loop with its budget `max_attempts = 10`. -/
def changeLoopResult (bank : List QuestionRecord) (sampler : Nat → Nat)
    (current : String) : Option QuestionRecord :=
  changeLoopGo bank sampler current 0 10

/-- Direct embedding of `change_question` (src lines 806-864). -/
def changeQuestion (env : Env) (o : Oracle) (sampler : Nat → Nat) (store : Store)
    (key : String) : Store × List Eff :=
  match store key with
  | none => (store, [Eff.send Msg.noGame])
  | some gs =>
    match changeLoopResult env.questions_bank sampler gs.question with
    | none => (store, [Eff.send Msg.changeFail])
    | some r =>
      if r.question = "" || r.answer = "" then (store, [Eff.send Msg.changeFail])
      else
        let gs1 : GameState :=
          { gs with
            question := r.question
            answer := r.answer
            metadata := r.metadata
            question_count := 0
            llm_conversation_context :=
              if o.llm then [⟨"system", hintSystemPrompt r.question r.answer⟩] else [] }
        let effT : List Eff := if gs.hasController then [Eff.timerReset] else []
        (store.set key gs1, effT ++ [Eff.send (Msg.changeSuccess r.metadata.id
          r.metadata.title r.metadata.difficulty r.question env.max_questions)])

/-- Direct embedding of `end_turtle_soup` (src lines 747-773). -/
def endTurtleSoup (store : Store) (key : String) : Store × List Eff :=
  match store key with
  | some gs =>
    let cu := cleanupGameSession store key
    (cu.1, [Eff.send (Msg.endSummary gs.answer gs.metadata.tags gs.question_count)] ++ cu.2)
  | none => (store, [Eff.send Msg.noGame])

/-- Direct embedding of `force_end_turtle_soup` (src lines 775-783). -/
def forceEndTurtleSoup (store : Store) (key : String) : Store × List Eff :=
  match store key with
  | some _ =>
    let cu := cleanupGameSession store key
    (cu.1, cu.2 ++ [Eff.send Msg.forceEnded])
  | none => (store, [Eff.send Msg.noGame])

/-- Direct embedding of `reveal_answer` (src lines 785-804): the answer text is
sent; the session and — notably — its timer are untouched. -/
def revealAnswer (store : Store) (key : String) : Store × List Eff :=
  match store key with
  | some gs =>
    (store, [Eff.send (Msg.revealMsg gs.metadata.id gs.metadata.title gs.question
      gs.answer gs.question_count)])
  | none => (store, [Eff.send Msg.noGame])

/-- `_admin_end_all_games` (src lines 866-881): every session is removed.  As
the store is modelled by a function its size is not computable here, so the
notice is modelled without its count and without the per-session timer-cancel
effects; no claim concerns them. -/
def adminEndAllGames (_store : Store) : Store × List Eff :=
  ((fun _ => none), [Eff.send Msg.adminCleared])

/-- Direct embedding of `_handle_game_turn` (src lines 399-469): the dispatch
performed for every input that reaches the session waiter of an active
session.  `user_id` is the sender id, which the (buggy) no-controller branch
of the source passes to `_cleanup_game_session` in place of the session key. -/
def handleGameTurn (env : Env) (o : Oracle) (sampler : Nat → Nat) (store : Store)
    (key user_id : String) (message_str : String) (isAdmin : Bool) : Store × List Eff :=
  let player_input := pyStrip message_str
  match store key with
  | none => (store, [])
  | some gs =>
    if strStartsWith player_input "开始海龟汤" then
      (store, [Eff.send Msg.gameInProgress] ++
        (if gs.hasController then [Eff.timerReset] else []))
    else if player_input = "结束海龟汤" then endTurtleSoup store key
    else if player_input = "强制结束海龟汤" then forceEndTurtleSoup store key
    else if player_input = "公布答案" then revealAnswer store key
    else if player_input = "换一题" then changeQuestion env o sampler store key
    else if player_input = "海龟汤帮助" then
      (store, [Eff.send (Msg.helpMsg env.max_questions env.session_timeout)])
    else if strStartsWith player_input "海龟汤提问" then
      match pySplitWsOnce player_input with
      | _ :: q :: _ =>
        if pyStrip q = "" then (store, [Eff.send Msg.emptyQuestion])
        else handleTurtleSoupQuestion env o store key (pyStrip q)
      | _ => (store, [Eff.send Msg.emptyQuestion])
    else if player_input = "admin end turtle" && isAdmin then adminEndAllGames store
    else
      if gs.hasController then (store, [Eff.timerReset])
      else cleanupGameSession store user_id

/-- Input class used to state the claims: an accepted question submission
(the 海龟汤提问 marker followed by non-empty text). -/
def isQuestionSubmission (s : String) : Bool :=
  strStartsWith s "海龟汤提问" &&
  (match pySplitWsOnce s with
   | _ :: q :: _ => !(pyStrip q = "")
   | _ => false)

/-- Input class used to state the claims: unrecognized chatter, matching none
of the dispatch branches of `_handle_game_turn`. -/
def isOtherChatter (s : String) : Bool :=
  !(strStartsWith s "开始海龟汤") && !(s = "结束海龟汤") && !(s = "强制结束海龟汤") &&
  !(s = "公布答案") && !(s = "换一题") && !(s = "海龟汤帮助") &&
  !(strStartsWith s "海龟汤提问") && !(s = "admin end turtle")

/-- `listClash a b` holds when the two lists disagree at some position where
both are defined; no extensions of the two lists can then be equal.  Used to
discharge the mutual exclusion of the dispatch branches. -/
def listClash : List Char → List Char → Bool
  | a :: as, b :: bs => !(a = b) || listClash as bs
  | _, _ => false

/-! ### Concrete fixtures (for witnesses and counterexamples) -/

/-- A sample record in the shape of the built-in default bank entry 001. -/
def mdA : Metadata := ⟨"001", "灯塔看守员", 3, ["经典"]⟩

/-- A sample record (id 001). -/
def recA : QuestionRecord := ⟨"一个男人推开门", "灯塔的灯灭了船只失事", mdA⟩

/-- A second sample record (id 002). -/
def recB : QuestionRecord := ⟨"海龟汤故事", "喝的是丈夫做的汤", ⟨"002", "海龟汤", 4, []⟩⟩

/-- Default configuration with a two-record bank. -/
def envA : Env := ⟨1000, 40, [recA, recB]⟩

/-- Default configuration with a single-record bank. -/
def envB : Env := ⟨1000, 40, [recA]⟩

/-- Configuration whose question budget is zero, for budget-exhaustion runs. -/
def envZero : Env := ⟨1000, 0, [recA, recB]⟩

/-- No reasoning service configured. -/
def oracleOff : Oracle := ⟨false, none, none⟩

/-- An active session on `recA` with five questions used. -/
def gsA : GameState := ⟨recA.question, recA.answer, mdA, 5, [⟨"system", "框架"⟩], true⟩

/-- An active session on `recA` with no questions used. -/
def gsC : GameState := ⟨recA.question, recA.answer, mdA, 0, [], true⟩

/-- A store holding `gsA` at key `g`. -/
def storeA : Store := fun k => if k = "g" then some gsA else none

/-- A store holding `gsC` at key `g`. -/
def storeC : Store := fun k => if k = "g" then some gsC else none

/-- The empty store. -/
def storeEmpty : Store := fun _ => none

/-! ### Helper lemmas -/

theorem addAnswerWord_chStr (ws : List String) (c : Char) :
    addAnswerWord ws (chStr c) = ws := by
  unfold addAnswerWord
  have h : pyLen (chStr c) = 1 := rfl
  rw [h]
  simp

theorem foldl_addAnswerWord (l : List Char) :
    ∀ ws : List String, (l.map chStr).foldl addAnswerWord ws = ws := by
  induction l with
  | nil => intro ws; rfl
  | cons c rest ih =>
    intro ws
    simp only [List.map_cons, List.foldl_cons, addAnswerWord_chStr]
    exact ih ws

theorem simpleAnswerCheck_false (g a : String) : simpleAnswerCheck g a = false := by
  unfold simpleAnswerCheck
  dsimp only
  rw [foldl_addAnswerWord]
  rfl

theorem bankStep_mem {qs : List QuestionRecord} {b : String} {r : QuestionRecord}
    (h : r ∈ bankStep qs b) :
    r ∈ qs ∨ parseQuestionBlock (pyStrip b) = some r := by
  unfold bankStep at h
  dsimp only at h
  split at h
  · exact Or.inl h
  · split at h
    · rename_i q hq
      rcases List.mem_append.mp h with h' | h'
      · exact Or.inl h'
      · simp only [List.mem_singleton] at h'
        subst h'
        exact Or.inr hq
    · exact Or.inl h

theorem foldl_bankStep_mem (blocks : List String) :
    ∀ (acc : List QuestionRecord) (r : QuestionRecord),
      r ∈ blocks.foldl bankStep acc →
      r ∈ acc ∨ ∃ b ∈ blocks, parseQuestionBlock (pyStrip b) = some r := by
  induction blocks with
  | nil => intro acc r h; exact Or.inl h
  | cons b rest ih =>
    intro acc r h
    rcases ih (bankStep acc b) r h with h' | ⟨b', hb', hp⟩
    · rcases bankStep_mem h' with h'' | h''
      · exact Or.inl h''
      · exact Or.inr ⟨b, List.mem_cons_self b rest, h''⟩
    · exact Or.inr ⟨b', List.mem_cons_of_mem b hb', hp⟩

theorem parseQuestionBlock_keys {block : String} {r : QuestionRecord}
    (h : parseQuestionBlock block = some r) :
    dget (blockInfo block) "ID" = some r.metadata.id ∧
    dget (blockInfo block) "汤面" = some r.question ∧
    dget (blockInfo block) "汤底" = some r.answer ∧
    pyInt ((dget (blockInfo block) "难度").getD "3") = some r.metadata.difficulty := by
  unfold parseQuestionBlock at h
  dsimp only at h
  split at h
  · rename_i hcond
    rw [Bool.and_eq_true, Bool.and_eq_true] at hcond
    obtain ⟨⟨hid, hq⟩, ha⟩ := hcond
    obtain ⟨i, hi⟩ := Option.isSome_iff_exists.mp hid
    obtain ⟨q, hq'⟩ := Option.isSome_iff_exists.mp hq
    obtain ⟨a, ha'⟩ := Option.isSome_iff_exists.mp ha
    split at h
    · rename_i d hd
      rw [Option.some.injEq] at h
      subst h
      refine ⟨?_, ?_, ?_, ?_⟩
      · rw [hi]; simp [hi]
      · rw [hq']; simp [hq']
      · rw [ha']; simp [ha']
      · exact hd
    · exact absurd h (by simp)
  · exact absurd h (by simp)

theorem parseQuestionBlock_dropped {block : String}
    (h : dget (blockInfo block) "ID" = none ∨
         dget (blockInfo block) "汤面" = none ∨
         dget (blockInfo block) "汤底" = none ∨
         pyInt ((dget (blockInfo block) "难度").getD "3") = none) :
    parseQuestionBlock block = none := by
  unfold parseQuestionBlock
  dsimp only
  split
  · rename_i hcond
    rw [Bool.and_eq_true, Bool.and_eq_true] at hcond
    obtain ⟨⟨hid, hq⟩, ha⟩ := hcond
    rcases h with h | h | h | h
    · rw [h] at hid; exact absurd hid (by simp)
    · rw [h] at hq; exact absurd hq (by simp)
    · rw [h] at ha; exact absurd ha (by simp)
    · rw [h]
  · rfl

/-! ### Claim C1 (`_simple_answer_check`) -/

/-- Claim C1, code_bug evaluation: the fallback answer check is constantly
false — in particular a guess identical to the solution is rejected — because
`for word in answer_lower` iterates over the characters of the solution
string, every one of which has length 1 and is excluded from the
meaningful-token set, which is therefore always empty.  The claim (and the
spec) says an identical guess returns true and that the token set is built
from multi-character tokens of the solution. -/
theorem C1_simple_answer_check_always_false :
    (∀ g a : String, simpleAnswerCheck g a = false) ∧
    simpleAnswerCheck "他是灯塔管理员" "他是灯塔管理员" = false :=
  ⟨simpleAnswerCheck_false, simpleAnswerCheck_false _ _⟩

/-! ### Claim C6 (`_validate_ai_response`) -/

/-- Claim C6: for every raw reply string from the reasoning service, the
normalization `_validate_ai_response` returns a member of the fixed 6-label
vocabulary 是/否/无关/请重新提问/很接近了/你猜对了一部分 (yes, no, unrelated,
ask-again, very-close, partially-correct): it returns the first vocabulary
term contained in the raw text in the fixed priority order, else applies the
negative/affirmative/relatedness marker rules, else defaults to ask-again. -/
theorem C6_validate_ai_response_in_vocabulary (raw : String) :
    validateAiResponse raw ∈ validResponses := by
  unfold validateAiResponse
  cases hf : validResponses.find? (fun v => strContains (pyStrip raw) v) with
  | some v =>
    simp only [hf]
    exact List.mem_of_find?_eq_some hf
  | none =>
    simp only [hf]
    split_ifs <;> simp [validResponses]

/-! ### Claim C3 (question-bank parsing) -/

/-- Claim C3, counterexample: parsing performs no range check on the
difficulty and no non-emptiness check on the story value, so a block with
difficulty 7 yields a record with difficulty outside [1,5], and a block with
an empty 汤面 value yields a record with an empty story. -/
theorem C3_counterexample :
    parseQuestionsBank "ID: 003\n汤面: 故事\n汤底: 真相\n难度: 7" =
      [⟨"故事", "真相", ⟨"003", "", 7, []⟩⟩] ∧
    parseQuestionsBank "ID: 004\n汤面:\n汤底: x" =
      [⟨"", "x", ⟨"004", "", 3, []⟩⟩] := by
  constructor <;> rfl

/-- Claim C3 as amended: every record produced by question-bank parsing comes
from a block whose key/value map contains all three required keys (ID, 汤面,
汤底, whose values — possibly empty strings — become the record's id, story
and solution) and whose difficulty value (default "3") parses as an integer
equal to the record's difficulty (not constrained to [1,5]); a block missing a
required key or whose difficulty value is not an integer yields no record,
with parsing of the other blocks unaffected. -/
theorem C3_parsing_guarantees :
    (∀ (block : String) (r : QuestionRecord), parseQuestionBlock block = some r →
      dget (blockInfo block) "ID" = some r.metadata.id ∧
      dget (blockInfo block) "汤面" = some r.question ∧
      dget (blockInfo block) "汤底" = some r.answer ∧
      pyInt ((dget (blockInfo block) "难度").getD "3") = some r.metadata.difficulty) ∧
    (∀ block : String,
      (dget (blockInfo block) "ID" = none ∨
       dget (blockInfo block) "汤面" = none ∨
       dget (blockInfo block) "汤底" = none ∨
       pyInt ((dget (blockInfo block) "难度").getD "3") = none) →
      parseQuestionBlock block = none) ∧
    (∀ (content : String) (r : QuestionRecord), r ∈ parseQuestionsBank content →
      ∃ b ∈ pySplitStr (pyStrip content) "---", parseQuestionBlock (pyStrip b) = some r) := by
  refine ⟨fun _ _ h => parseQuestionBlock_keys h,
          fun _ h => parseQuestionBlock_dropped h,
          fun content r h => ?_⟩
  rcases foldl_bankStep_mem _ _ _ h with h' | h'
  · exact absurd h' (List.not_mem_nil r)
  · exact h'

/-- Claim C3 witness: the amended theorem applied at concrete blocks — a block
missing the 汤底 key is dropped, and the single record parsed from a
well-formed bank satisfies the key/difficulty guarantees. -/
theorem C3_parsing_guarantees_witness :
    parseQuestionBlock "ID: 001\n汤面: a" = none ∧
    dget (blockInfo "ID: 001\n汤面: a\n汤底: b\n难度: 4") "汤底" = some "b" := by
  refine ⟨C3_parsing_guarantees.2.1 _ (Or.inr (Or.inr (Or.inl (by rfl)))), ?_⟩
  have h := (C3_parsing_guarantees.1 "ID: 001\n汤面: a\n汤底: b\n难度: 4"
    ⟨"a", "b", ⟨"001", "", 4, []⟩⟩ (by rfl)).2.2.1
  exact h

theorem Store.set_self (s : Store) (k : String) (v : GameState) :
    Store.set s k v k = some v := by
  simp [Store.set]

theorem Store.del_self (s : Store) (k : String) : Store.del s k k = none := by
  simp [Store.del]

theorem cleanupGameSession_absent (store : Store) (key : String) :
    (cleanupGameSession store key).1 key = none := by
  unfold cleanupGameSession
  cases h : store key with
  | none => exact h
  | some gs => exact Store.del_self store key

theorem getQuestionAndAnswer_not_found {bank : List QuestionRecord} {q : String}
    (h : bank.find? (fun r => r.metadata.id = q) = none) (rpick : Nat) :
    getQuestionAndAnswer bank (some q) rpick = none := by
  unfold getQuestionAndAnswer
  split
  · rfl
  · exact h

theorem changeSample_singleton (r : QuestionRecord) (sampler : Nat → Nat) (i : Nat) :
    changeSample [r] sampler i = some r := by
  unfold changeSample getQuestionAndAnswer
  simp [Nat.mod_one]

theorem changeSample_nil (sampler : Nat → Nat) (i : Nat) :
    changeSample [] sampler i = none := rfl

theorem changeLoopGo_within (bank : List QuestionRecord) (sampler : Nat → Nat)
    (current : String) :
    ∀ (fuel i : Nat), 0 < fuel →
      ∃ k, k < fuel ∧
        changeLoopGo bank sampler current i fuel = changeSample bank sampler (i + k) := by
  intro fuel
  induction fuel using Nat.strong_induction_on with
  | _ fuel ih =>
    match fuel with
    | 0 => intro i h; exact absurd h (by simp)
    | 1 => intro i _; exact ⟨0, by omega, by simp [changeLoopGo]⟩
    | n + 2 =>
      intro i _
      cases hb : breakCond current (changeSample bank sampler i) with
      | true => exact ⟨0, by omega, by simp [changeLoopGo, hb]⟩
      | false =>
        obtain ⟨k, hk, he⟩ := ih (n + 1) (by omega) (i + 1) (by omega)
        refine ⟨k + 1, by omega, ?_⟩
        have : changeLoopGo bank sampler current i (n + 2) =
            changeLoopGo bank sampler current (i + 1) (n + 1) := by
          simp [changeLoopGo, hb]
        rw [this, he]
        congr 1
        omega

theorem changeLoopGo_break (bank : List QuestionRecord) (sampler : Nat → Nat)
    (current : String) :
    ∀ (fuel i : Nat),
      (∃ k, k < fuel ∧ breakCond current (changeSample bank sampler (i + k)) = true) →
      breakCond current (changeLoopGo bank sampler current i fuel) = true := by
  intro fuel
  induction fuel using Nat.strong_induction_on with
  | _ fuel ih =>
    match fuel with
    | 0 => intro i ⟨k, hk, _⟩; exact absurd hk (by omega)
    | 1 =>
      intro i ⟨k, hk, hc⟩
      have hk0 : k = 0 := by omega
      subst hk0
      simpa [changeLoopGo] using hc
    | n + 2 =>
      intro i ⟨k, hk, hc⟩
      cases hb : breakCond current (changeSample bank sampler i) with
      | true =>
        have step : changeLoopGo bank sampler current i (n + 2) =
            changeSample bank sampler i := by
          simp [changeLoopGo, hb]
        rw [step]
        exact hb
      | false =>
        have hk0 : k ≠ 0 := by
          intro h0
          subst h0
          simp only [Nat.add_zero] at hc
          rw [hc] at hb
          exact absurd hb (by simp)
        obtain ⟨k', rfl⟩ : ∃ k', k = k' + 1 := ⟨k - 1, by omega⟩
        have step : changeLoopGo bank sampler current i (n + 2) =
            changeLoopGo bank sampler current (i + 1) (n + 1) := by
          simp [changeLoopGo, hb]
        rw [step]
        refine ih (n + 1) (by omega) (i + 1) ⟨k', by omega, ?_⟩
        have : i + 1 + k' = i + (k' + 1) := by omega
        rw [this]
        exact hc

theorem changeLoopGo_singleton (r : QuestionRecord) (sampler : Nat → Nat)
    (current : String) :
    ∀ (fuel i : Nat), changeLoopGo [r] sampler current i fuel = some r := by
  intro fuel
  induction fuel using Nat.strong_induction_on with
  | _ fuel ih =>
    match fuel with
    | 0 => intro i; simp [changeLoopGo, changeSample_singleton]
    | 1 => intro i; simp [changeLoopGo, changeSample_singleton]
    | n + 2 =>
      intro i
      cases hb : breakCond current (changeSample [r] sampler i) with
      | true =>
        have step : changeLoopGo [r] sampler current i (n + 2) =
            changeSample [r] sampler i := by
          simp [changeLoopGo, hb]
        rw [step]
        exact changeSample_singleton r sampler i
      | false =>
        have step : changeLoopGo [r] sampler current i (n + 2) =
            changeLoopGo [r] sampler current (i + 1) (n + 1) := by
          simp [changeLoopGo, hb]
        rw [step]
        exact ih (n + 1) (by omega) (i + 1)

theorem changeLoopGo_nil (sampler : Nat → Nat) (current : String) :
    ∀ (fuel i : Nat), changeLoopGo [] sampler current i fuel = none := by
  intro fuel
  induction fuel using Nat.strong_induction_on with
  | _ fuel ih =>
    match fuel with
    | 0 => intro i; rfl
    | 1 => intro i; rfl
    | n + 2 =>
      intro i
      have step : changeLoopGo [] sampler current i (n + 2) =
          changeLoopGo [] sampler current (i + 1) (n + 1) := by
        simp [changeLoopGo, changeSample_nil, breakCond]
      rw [step]
      exact ih (n + 1) (by omega) (i + 1)

/-! ### Claim C9 (start while a session exists) -/

/-- Claim C9: a start operation issued while a session already exists for the
same session key is rejected with the already-in-progress notice and causes no
mutation — the returned store is the input store itself, so the existing
session's record, questionCount and context are all unchanged. -/
theorem C9_start_conflict_no_mutation (env : Env) (o : Oracle) (rpick : Nat)
    (store : Store) (key message_str : String) (gs : GameState)
    (h : store key = some gs) :
    startTurtleSoup env o rpick store key message_str =
      (store, [Eff.send Msg.gameInProgress]) := by
  unfold startTurtleSoup
  rw [h]
  rfl

/-- Claim C9 witness: the theorem applied to a concrete store holding an
active session. -/
theorem C9_start_conflict_no_mutation_witness :
    startTurtleSoup envA oracleOff 0 storeA "g" "开始海龟汤" =
      (storeA, [Eff.send Msg.gameInProgress]) :=
  C9_start_conflict_no_mutation envA oracleOff 0 storeA "g" "开始海龟汤" gsA rfl

/-! ### Claim C10 (id-format-error branch of start is unreachable) -/

/-- Claim C10: for every argument string supplied to the start operation the
id-format-error branch is unreachable — the argument is zero-padded to width 3
without any possibility of a parse exception — and an id whose zero-padded
form matches no bank record yields the not-found notice with no session
registered (the store is returned unchanged). -/
theorem C10_start_format_error_unreachable (env : Env) (o : Oracle) (rpick : Nat)
    (store : Store) (key message_str : String) :
    Eff.send Msg.formatError ∉ (startTurtleSoup env o rpick store key message_str).2 ∧
    (∀ (w p : String) (rest : List String),
      store key = none →
      pySplitWs message_str = w :: p :: rest →
      env.questions_bank.find? (fun r => r.metadata.id = pyZfill p 3) = none →
      startTurtleSoup env o rpick store key message_str =
        (store, [Eff.send (Msg.disclaimer env.max_questions env.session_timeout),
                 Eff.send (Msg.notFound (pyZfill p 3))])) := by
  constructor
  · unfold startTurtleSoup
    split
    · simp
    · dsimp only
      split
      · split <;> simp
      · rename_i r _
        split
        · split <;> simp
        · split <;> simp
  · intro w p rest hnone hsplit hfind
    unfold startTurtleSoup
    rw [hnone, hsplit]
    dsimp only
    rw [getQuestionAndAnswer_not_found hfind]
    rfl

/-- Claim C10 witness: starting with the non-numeric unknown id `abc` on an
empty store sends the disclaimer and the not-found notice (never the
format-error notice) and registers no session. -/
theorem C10_start_format_error_unreachable_witness :
    startTurtleSoup envA oracleOff 0 storeEmpty "g" "开始海龟汤 abc" =
      (storeEmpty, [Eff.send (Msg.disclaimer 40 1000), Eff.send (Msg.notFound "abc")]) :=
  (C10_start_format_error_unreachable envA oracleOff 0 storeEmpty "g"
    "开始海龟汤 abc").2 "开始海龟汤" "abc" [] rfl rfl (by decide)

/-! ### Claim C4 (exhausted question budget terminates the session) -/

/-- Claim C4: for an accepted question submission in an active session whose
guess (if any) is not correct, if questionCount after the increment exceeds
the configured maximum, the engine emits the exhausted-budget summary (with
the solution text and tags) and the session is removed from the store. -/
theorem C4_budget_exhausted_terminates (env : Env) (o : Oracle) (store : Store)
    (key question : String) (gs : GameState)
    (hgs : store key = some gs)
    (hwrong : isAnswerCorrect o question gs.answer = false)
    (hover : env.max_questions < gs.question_count + 1) :
    Eff.send (Msg.outOfQuestions env.max_questions gs.answer gs.metadata.tags) ∈
      (handleTurtleSoupQuestion env o store key question).2 ∧
    (handleTurtleSoupQuestion env o store key question).1 key = none := by
  unfold handleTurtleSoupQuestion
  rw [hgs]
  dsimp only
  rw [hwrong, Bool.and_false]
  simp only [Bool.false_eq_true, if_false, gt_iff_lt, hover, if_true]
  exact ⟨by simp, cleanupGameSession_absent _ _⟩

/-- Claim C4 witness: with a zero question budget, the first (incorrect)
submission yields the exhausted-budget summary and removes the session. -/
theorem C4_budget_exhausted_terminates_witness :
    Eff.send (Msg.outOfQuestions 0 recA.answer mdA.tags) ∈
      (handleTurtleSoupQuestion envZero oracleOff storeC "g" "他饿了吗").2 ∧
    (handleTurtleSoupQuestion envZero oracleOff storeC "g" "他饿了吗").1 "g" = none :=
  C4_budget_exhausted_terminates envZero oracleOff storeC "g" "他饿了吗" gsC
    rfl rfl (by decide)

/-! ### Claim C2 (change-question on an exhausted retry budget) -/

/-- Claim C2, code-bug evaluation: with a single-record bank the retry loop
exhausts its budget holding the current record, whose non-empty fields make
the apology branch unreachable, so `change_question` — contrary to the claim,
to the spec's error table, and to the source's own intent of ensuring a
different record — replaces the record with the identical one, resets
questionCount to 0, clears the conversation context and reports success. -/
theorem C2_change_question_exhausted_mutates :
    (changeQuestion envB oracleOff (fun _ => 0) storeA "g").1 "g" =
      some { gsA with question_count := 0, llm_conversation_context := [] } ∧
    Eff.send Msg.changeFail ∉ (changeQuestion envB oracleOff (fun _ => 0) storeA "g").2 ∧
    Eff.send (Msg.changeSuccess "001" "灯塔看守员" 3 "一个男人推开门" 40) ∈
      (changeQuestion envB oracleOff (fun _ => 0) storeA "g").2 := by
  refine ⟨by decide, by decide, by decide⟩

/-! ### Claim C7 (the change-question sampling loop) -/

/-- Claim C7, counterexample: with bank size 1 the loop result is the current
record itself — `change_question` then proceeds without reporting failure —
and with bank size 2 an (entirely possible) run of ten samples that all draw
the current record also ends with the current record rather than a different
one. -/
theorem C7_counterexample :
    changeLoopResult [recA] (fun _ => 0) recA.question = some recA ∧
    changeLoopResult [recA, recB] (fun _ => 0) recA.question = some recA ∧
    Eff.send Msg.changeFail ∉ (changeQuestion envB oracleOff (fun _ => 0) storeA "g").2 := by
  refine ⟨by decide, by decide, by decide⟩

/-- Claim C7 as amended: the sampling loop always terminates within its budget
— its result is one of its first 10 samples; whenever at least one of those
samples is a usable record different from the current one (guaranteed only
probabilistically for bank size > 1, not absolutely), the result is such a
record; when every sample equals the current record — always the case with
bank size 1 — the loop ends holding the current record and no failure is
reported; the failure (apology) outcome arises from an empty bank, whose
samples are all `none`. -/
theorem C7_change_sampling_loop (bank : List QuestionRecord) (sampler : Nat → Nat)
    (current : String) :
    (∃ k, k < 10 ∧ changeLoopResult bank sampler current = changeSample bank sampler k) ∧
    ((∃ k, k < 10 ∧ breakCond current (changeSample bank sampler k) = true) →
      breakCond current (changeLoopResult bank sampler current) = true) ∧
    (∀ r, bank = [r] → changeLoopResult bank sampler current = some r) ∧
    (bank = [] → changeLoopResult bank sampler current = none) := by
  refine ⟨?_, ?_, ?_, ?_⟩
  · obtain ⟨k, hk, he⟩ := changeLoopGo_within bank sampler current 10 0 (by omega)
    rw [Nat.zero_add] at he
    exact ⟨k, hk, he⟩
  · intro ⟨k, hk, hc⟩
    refine changeLoopGo_break bank sampler current 10 0 ⟨k, hk, ?_⟩
    rw [Nat.zero_add]
    exact hc
  · intro r hr
    subst hr
    exact changeLoopGo_singleton r sampler current 10 0
  · intro hb
    subst hb
    exact changeLoopGo_nil sampler current 10 0

/-- Claim C7 witness: the amended theorem applied to the two-record bank with
a sampler that draws the non-current record first. -/
theorem C7_change_sampling_loop_witness :
    breakCond recA.question (changeLoopResult [recA, recB] (fun _ => 1) recA.question) = true :=
  (C7_change_sampling_loop [recA, recB] (fun _ => 1) recA.question).2.1
    ⟨0, by decide, by decide⟩

/-! ### Dispatch-disambiguation lemmas -/

theorem listClash_append_ne {l1 l2 : List Char} (h : listClash l1 l2 = true) :
    ∀ t1 t2 : List Char, l1 ++ t1 ≠ l2 ++ t2 := by
  induction l1 generalizing l2 with
  | nil => cases l2 <;> simp [listClash] at h
  | cons a as ih =>
    cases l2 with
    | nil => simp [listClash] at h
    | cons b bs =>
      intro t1 t2 he
      simp only [List.cons_append, List.cons.injEq] at he
      obtain ⟨hab, hrest⟩ := he
      rw [listClash, Bool.or_eq_true] at h
      rcases h with h | h
      · rw [Bool.not_eq_eq_eq_not, Bool.not_true, decide_eq_false_iff_not] at h
        exact h hab
      · exact ih h t1 t2 hrest

theorem listIsPre_false_of_clash {q l : List Char} (h : listClash q l = true) :
    ∀ t, listIsPre q (l ++ t) = false := by
  induction q generalizing l with
  | nil => cases l <;> simp [listClash] at h
  | cons a as ih =>
    cases l with
    | nil => simp [listClash] at h
    | cons b bs =>
      intro t
      show (decide (a = b) && listIsPre as (bs ++ t)) = false
      rw [listClash, Bool.or_eq_true] at h
      rcases h with h | h
      · rw [Bool.not_eq_eq_eq_not, Bool.not_true] at h
        rw [h, Bool.false_and]
      · rw [ih h t, Bool.and_false]

theorem listIsPre_append {p : List Char} :
    ∀ {l : List Char}, listIsPre p l = true → ∃ t, l = p ++ t := by
  induction p with
  | nil => exact fun {l} _ => ⟨l, rfl⟩
  | cons a as ih =>
    intro l h
    cases l with
    | nil => simp [listIsPre] at h
    | cons c cs =>
      rw [listIsPre, Bool.and_eq_true, decide_eq_true_eq] at h
      obtain ⟨rfl, h2⟩ := h
      obtain ⟨t, rfl⟩ := ih h2
      exact ⟨t, rfl⟩

/-- A stripped input carrying the question-submission marker matches none of
the dispatch conditions tested before it. -/
theorem submission_marker_shape {p : String}
    (h : strStartsWith p "海龟汤提问" = true) :
    strStartsWith p "开始海龟汤" = false ∧ p ≠ "结束海龟汤" ∧ p ≠ "强制结束海龟汤" ∧
    p ≠ "公布答案" ∧ p ≠ "换一题" ∧ p ≠ "海龟汤帮助" := by
  have h' : listIsPre ("海龟汤提问" : String).data p.data = true := h
  obtain ⟨t, ht⟩ := listIsPre_append h'
  refine ⟨?_, ?_, ?_, ?_, ?_, ?_⟩
  · show listIsPre ("开始海龟汤" : String).data p.data = false
    rw [ht]
    exact listIsPre_false_of_clash (by decide) t
  · intro he
    exact (@listClash_append_ne ("海龟汤提问" : String).data ("结束海龟汤" : String).data
      (by decide) t []) (by rw [List.append_nil, ← ht, he])
  · intro he
    exact (@listClash_append_ne ("海龟汤提问" : String).data ("强制结束海龟汤" : String).data
      (by decide) t []) (by rw [List.append_nil, ← ht, he])
  · intro he
    exact (@listClash_append_ne ("海龟汤提问" : String).data ("公布答案" : String).data
      (by decide) t []) (by rw [List.append_nil, ← ht, he])
  · intro he
    exact (@listClash_append_ne ("海龟汤提问" : String).data ("换一题" : String).data
      (by decide) t []) (by rw [List.append_nil, ← ht, he])
  · intro he
    exact (@listClash_append_ne ("海龟汤提问" : String).data ("海龟汤帮助" : String).data
      (by decide) t []) (by rw [List.append_nil, ← ht, he])

/-! ### Sub-handler lemmas -/

theorem endTurtleSoup_removes (store : Store) (key : String) :
    (endTurtleSoup store key).1 key = none := by
  unfold endTurtleSoup
  cases h : store key with
  | none => exact h
  | some gs => exact cleanupGameSession_absent store key

theorem forceEndTurtleSoup_removes (store : Store) (key : String) :
    (forceEndTurtleSoup store key).1 key = none := by
  unfold forceEndTurtleSoup
  cases h : store key with
  | none => exact h
  | some gs => exact cleanupGameSession_absent store key

theorem revealAnswer_store_eq (store : Store) (key : String) :
    (revealAnswer store key).1 = store := by
  unfold revealAnswer
  cases h : store key <;> rfl

theorem cleanupGameSession_subset {store : Store} {u k : String} {v : GameState}
    (h : (cleanupGameSession store u).1 k = some v) : store k = some v := by
  unfold cleanupGameSession at h
  cases hu : store u with
  | none => rw [hu] at h; exact h
  | some gs =>
    rw [hu] at h
    dsimp only [Store.del] at h
    split at h
    · exact absurd h (by simp)
    · exact h

theorem getAiJudgeResponse_count (o : Oracle) (q : String) (g : GameState) :
    (getAiJudgeResponse o q g).1.question_count = g.question_count := by
  unfold getAiJudgeResponse
  split
  · split <;> rfl
  · rfl

theorem handleTurtleSoupQuestion_count {env : Env} {o : Oracle} {store : Store}
    {key q : String} {gs gs' : GameState} (hgs : store key = some gs)
    (h : (handleTurtleSoupQuestion env o store key q).1 key = some gs') :
    gs'.question_count = gs.question_count + 1 := by
  unfold handleTurtleSoupQuestion at h
  rw [hgs] at h
  dsimp only at h
  split at h
  · rw [cleanupGameSession_absent] at h
    exact absurd h (by simp)
  · split at h
    · rw [cleanupGameSession_absent] at h
      exact absurd h (by simp)
    · split at h <;>
      · dsimp only at h
        rw [Store.set_self] at h
        rw [Option.some.injEq] at h
        rw [← h]
        exact getAiJudgeResponse_count o q _

theorem handleTurtleSoupQuestion_timer {env : Env} {o : Oracle} {store : Store}
    {key q : String} {gs : GameState} (hgs : store key = some gs)
    (hc : gs.hasController = true) :
    Eff.timerReset ∈ (handleTurtleSoupQuestion env o store key q).2 := by
  unfold handleTurtleSoupQuestion
  rw [hgs]
  dsimp only
  rw [hc]
  split
  · split <;> simp
  · split
    · split <;> simp
    · split <;> (split <;> simp)

theorem changeQuestion_count (env : Env) (o : Oracle) (sampler : Nat → Nat)
    (store : Store) (key : String) :
    (changeQuestion env o sampler store key).1 = store ∨
    ∀ gs', (changeQuestion env o sampler store key).1 key = some gs' →
      gs'.question_count = 0 := by
  unfold changeQuestion
  cases hk : store key with
  | none => exact Or.inl rfl
  | some gs =>
    dsimp only
    cases hres : changeLoopResult env.questions_bank sampler gs.question with
    | none => exact Or.inl rfl
    | some r =>
      dsimp only
      split
      · exact Or.inl rfl
      · refine Or.inr fun gs' h => ?_
        dsimp only at h
        rw [Store.set_self, Option.some.injEq] at h
        rw [← h]

theorem changeQuestion_timer {env : Env} {o : Oracle} {sampler : Nat → Nat}
    {store : Store} {key : String} {gs : GameState} (hgs : store key = some gs)
    (hc : gs.hasController = true)
    (hok : qaOk (changeLoopResult env.questions_bank sampler gs.question) = true) :
    Eff.timerReset ∈ (changeQuestion env o sampler store key).2 := by
  unfold changeQuestion
  rw [hgs]
  dsimp only
  cases hres : changeLoopResult env.questions_bank sampler gs.question with
  | none => rw [hres] at hok; exact absurd hok (by simp [qaOk])
  | some r =>
    rw [hres] at hok
    dsimp only
    have hq : ¬(r.question = "" ∨ r.answer = "") := by
      simp only [qaOk, Bool.and_eq_true, Bool.not_eq_eq_eq_not, Bool.not_true,
        decide_eq_false_iff_not] at hok
      rintro (h | h)
      · exact hok.1 h
      · exact hok.2 h
    rw [if_neg (by simpa using hq)]
    rw [hc]
    simp

theorem endTurtleSoup_cancels {store : Store} {key : String} {gs : GameState}
    (hgs : store key = some gs) (hc : gs.hasController = true) :
    Eff.timerReset ∉ (endTurtleSoup store key).2 ∧
    Eff.timerCancel ∈ (endTurtleSoup store key).2 := by
  unfold endTurtleSoup cleanupGameSession
  rw [hgs]
  dsimp only
  rw [hc]
  simp

theorem forceEndTurtleSoup_cancels {store : Store} {key : String} {gs : GameState}
    (hgs : store key = some gs) (hc : gs.hasController = true) :
    Eff.timerCancel ∈ (forceEndTurtleSoup store key).2 := by
  unfold forceEndTurtleSoup cleanupGameSession
  rw [hgs]
  dsimp only
  rw [hc]
  simp

/-- Routing of an accepted question submission through `_handle_game_turn`:
the dispatch reaches `_handle_turtle_soup_question` on the stripped question
text. -/
theorem handleGameTurn_submission (env : Env) (o : Oracle) (sampler : Nat → Nat)
    (store : Store) (key user_id message_str : String) (adm : Bool) (gs : GameState)
    (hgs : store key = some gs)
    (hsub : isQuestionSubmission (pyStrip message_str) = true) :
    ∃ w q rest, pySplitWsOnce (pyStrip message_str) = w :: q :: rest ∧
      pyStrip q ≠ "" ∧
      handleGameTurn env o sampler store key user_id message_str adm =
        handleTurtleSoupQuestion env o store key (pyStrip q) := by
  unfold isQuestionSubmission at hsub
  rw [Bool.and_eq_true] at hsub
  obtain ⟨hpre, hmatch⟩ := hsub
  obtain ⟨h1, h2, h3, h4, h5, h6⟩ := submission_marker_shape hpre
  cases hm : pySplitWsOnce (pyStrip message_str) with
  | nil => rw [hm] at hmatch; exact absurd hmatch (by simp)
  | cons w tail =>
    cases tail with
    | nil => rw [hm] at hmatch; exact absurd hmatch (by simp)
    | cons q rest =>
      rw [hm] at hmatch
      simp only [Bool.not_eq_eq_eq_not, Bool.not_true, decide_eq_false_iff_not] at hmatch
      refine ⟨w, q, rest, rfl, hmatch, ?_⟩
      unfold handleGameTurn
      dsimp only
      rw [hgs]
      dsimp only
      rw [h1]
      simp only [Bool.false_eq_true, if_false]
      rw [if_neg h2, if_neg h3, if_neg h4, if_neg h5, if_neg h6, if_pos hpre, hm]
      dsimp only
      rw [if_neg hmatch]

/-! ### Claim C5 (questionCount discipline) -/

/-- Claim C5: for an active session, an accepted question-submission turn
increments questionCount by exactly 1 (the increment happens before guess
classification, so an incorrect guess still consumes a slot — the surviving
session always shows the incremented count); the change-question operation is
the only input that can reset it to 0; every other input leaves the surviving
session's questionCount unchanged. -/
theorem C5_question_count_discipline (env : Env) (o : Oracle) (sampler : Nat → Nat)
    (store : Store) (key user_id message_str : String) (adm : Bool) (gs : GameState)
    (hgs : store key = some gs) :
    (isQuestionSubmission (pyStrip message_str) = true →
      ∀ gs', (handleGameTurn env o sampler store key user_id message_str adm).1 key = some gs' →
        gs'.question_count = gs.question_count + 1) ∧
    (pyStrip message_str = "换一题" →
      ∀ gs', (handleGameTurn env o sampler store key user_id message_str adm).1 key = some gs' →
        gs'.question_count = 0 ∨ gs'.question_count = gs.question_count) ∧
    (isQuestionSubmission (pyStrip message_str) = false →
      pyStrip message_str ≠ "换一题" →
      ∀ gs', (handleGameTurn env o sampler store key user_id message_str adm).1 key = some gs' →
        gs'.question_count = gs.question_count) := by
  refine ⟨?_, ?_, ?_⟩
  · intro hsub gs' hsurv
    obtain ⟨w, q, rest, hm, hq, hroute⟩ :=
      handleGameTurn_submission env o sampler store key user_id message_str adm gs hgs hsub
    rw [hroute] at hsurv
    exact handleTurtleSoupQuestion_count hgs hsurv
  · intro hchg gs' hsurv
    have hroute : handleGameTurn env o sampler store key user_id message_str adm =
        changeQuestion env o sampler store key := by
      unfold handleGameTurn
      dsimp only
      rw [hchg, hgs]
      rfl
    rw [hroute] at hsurv
    rcases changeQuestion_count env o sampler store key with h | h
    · rw [h, hgs] at hsurv
      rw [Option.some.injEq] at hsurv
      rw [← hsurv]
      exact Or.inr rfl
    · exact Or.inl (h gs' hsurv)
  · intro hnsub hnchg gs' hsurv
    unfold handleGameTurn at hsurv
    dsimp only at hsurv
    rw [hgs] at hsurv
    dsimp only at hsurv
    split at hsurv
    · -- start-token notice: store unchanged
      dsimp only at hsurv
      rw [hgs] at hsurv
      rw [Option.some.injEq] at hsurv
      rw [← hsurv]
    · split at hsurv
      · rw [endTurtleSoup_removes] at hsurv
        exact absurd hsurv (by simp)
      · split at hsurv
        · rw [forceEndTurtleSoup_removes] at hsurv
          exact absurd hsurv (by simp)
        · split at hsurv
          · rw [revealAnswer_store_eq, hgs] at hsurv
            rw [Option.some.injEq] at hsurv
            rw [← hsurv]
          · -- the 换一题 case is discharged by `split` against hnchg
            split at hsurv
            · -- help: store unchanged
              dsimp only at hsurv
              rw [hgs] at hsurv
              rw [Option.some.injEq] at hsurv
              rw [← hsurv]
            · split at hsurv
              · -- question marker
                rename_i hpre
                split at hsurv
                · rename_i w q rest hm
                  split at hsurv
                  · -- empty question: store unchanged
                    dsimp only at hsurv
                    rw [hgs] at hsurv
                    rw [Option.some.injEq] at hsurv
                    rw [← hsurv]
                  · -- non-empty question: contradicts hnsub
                    rename_i hq
                    have hsubt : isQuestionSubmission (pyStrip message_str) = true := by
                      unfold isQuestionSubmission
                      rw [hpre, hm]
                      simpa using hq
                    rw [hnsub] at hsubt
                    exact absurd hsubt (by simp)
                · -- short split: empty-question notice, store unchanged
                  dsimp only at hsurv
                  rw [hgs] at hsurv
                  rw [Option.some.injEq] at hsurv
                  rw [← hsurv]
              · split at hsurv
                · -- admin end all: everything removed
                  exact absurd hsurv (by simp [adminEndAllGames])
                · split at hsurv
                  · -- chatter with controller: store unchanged
                    dsimp only at hsurv
                    rw [hgs] at hsurv
                    rw [Option.some.injEq] at hsurv
                    rw [← hsurv]
                  · -- no controller: cleanup by user id
                    have := cleanupGameSession_subset hsurv
                    rw [hgs] at this
                    rw [Option.some.injEq] at this
                    rw [← this]

/-- Claim C5 witness: an accepted submission on a session with five used
questions leaves a surviving session with exactly six. -/
theorem C5_question_count_discipline_witness :
    ∃ gs', (handleGameTurn envA oracleOff (fun _ => 0) storeA "g" "u"
        "海龟汤提问 他高兴吗" false).1 "g" = some gs' ∧ gs'.question_count = 6 := by
  have h := (C5_question_count_discipline envA oracleOff (fun _ => 0) storeA "g" "u"
    "海龟汤提问 他高兴吗" false gsA rfl).1 (by decide)
  exact ⟨_, rfl, h _ rfl⟩

/-! ### Claim C8 (timer-reset behaviour of the dispatch) -/

/-- Claim C8, counterexample: with an active session owning a controller, the
reveal-answer and help commands produce no timer-reset effect — contrary to
the claim that every accepted input (including reveal-answer and help) resets
the inactivity timer. -/
theorem C8_counterexample :
    Eff.timerReset ∉ (handleGameTurn envA oracleOff (fun _ => 0) storeA "g" "u"
      "公布答案" false).2 ∧
    Eff.timerReset ∉ (handleGameTurn envA oracleOff (fun _ => 0) storeA "g" "u"
      "海龟汤帮助" false).2 := by
  exact ⟨by decide, by decide⟩

/-- Claim C8 as amended: with an active session owning a controller, the
inputs that reset the inactivity timer are: a start token received while
active, a change-question that obtains a usable record, an accepted question
submission, and unrecognized chatter; reveal-answer and help do not touch the
timer; end and force-end cancel it as part of removal. -/
theorem C8_timer_reset_behaviour (env : Env) (o : Oracle) (sampler : Nat → Nat)
    (store : Store) (key user_id message_str : String) (adm : Bool) (gs : GameState)
    (hgs : store key = some gs) (hc : gs.hasController = true) :
    (pyStrip message_str = "公布答案" →
      Eff.timerReset ∉ (handleGameTurn env o sampler store key user_id message_str adm).2 ∧
      Eff.timerCancel ∉ (handleGameTurn env o sampler store key user_id message_str adm).2) ∧
    (pyStrip message_str = "海龟汤帮助" →
      Eff.timerReset ∉ (handleGameTurn env o sampler store key user_id message_str adm).2) ∧
    (isQuestionSubmission (pyStrip message_str) = true →
      Eff.timerReset ∈ (handleGameTurn env o sampler store key user_id message_str adm).2) ∧
    (strStartsWith (pyStrip message_str) "开始海龟汤" = true →
      Eff.timerReset ∈ (handleGameTurn env o sampler store key user_id message_str adm).2) ∧
    (pyStrip message_str = "换一题" →
      qaOk (changeLoopResult env.questions_bank sampler gs.question) = true →
      Eff.timerReset ∈ (handleGameTurn env o sampler store key user_id message_str adm).2) ∧
    (pyStrip message_str = "结束海龟汤" →
      Eff.timerReset ∉ (handleGameTurn env o sampler store key user_id message_str adm).2 ∧
      Eff.timerCancel ∈ (handleGameTurn env o sampler store key user_id message_str adm).2) ∧
    (pyStrip message_str = "强制结束海龟汤" →
      Eff.timerCancel ∈ (handleGameTurn env o sampler store key user_id message_str adm).2) ∧
    (isOtherChatter (pyStrip message_str) = true →
      Eff.timerReset ∈ (handleGameTurn env o sampler store key user_id message_str adm).2) := by
  refine ⟨?_, ?_, ?_, ?_, ?_, ?_, ?_, ?_⟩
  · intro hmsg
    have hroute : handleGameTurn env o sampler store key user_id message_str adm =
        revealAnswer store key := by
      unfold handleGameTurn
      dsimp only
      rw [hmsg, hgs]
      rfl
    rw [hroute]
    unfold revealAnswer
    rw [hgs]
    simp
  · intro hmsg
    have hroute : handleGameTurn env o sampler store key user_id message_str adm =
        (store, [Eff.send (Msg.helpMsg env.max_questions env.session_timeout)]) := by
      unfold handleGameTurn
      dsimp only
      rw [hmsg, hgs]
      rfl
    rw [hroute]
    simp
  · intro hsub
    obtain ⟨w, q, rest, hm, hq, hroute⟩ :=
      handleGameTurn_submission env o sampler store key user_id message_str adm gs hgs hsub
    rw [hroute]
    exact handleTurtleSoupQuestion_timer hgs hc
  · intro hstart
    unfold handleGameTurn
    dsimp only
    rw [hgs]
    dsimp only
    rw [if_pos hstart, hc]
    simp
  · intro hmsg hok
    have hroute : handleGameTurn env o sampler store key user_id message_str adm =
        changeQuestion env o sampler store key := by
      unfold handleGameTurn
      dsimp only
      rw [hmsg, hgs]
      rfl
    rw [hroute]
    exact changeQuestion_timer hgs hc hok
  · intro hmsg
    have hroute : handleGameTurn env o sampler store key user_id message_str adm =
        endTurtleSoup store key := by
      unfold handleGameTurn
      dsimp only
      rw [hmsg, hgs]
      rfl
    rw [hroute]
    exact endTurtleSoup_cancels hgs hc
  · intro hmsg
    have hroute : handleGameTurn env o sampler store key user_id message_str adm =
        forceEndTurtleSoup store key := by
      unfold handleGameTurn
      dsimp only
      rw [hmsg, hgs]
      rfl
    rw [hroute]
    exact forceEndTurtleSoup_cancels hgs hc
  · intro hoth
    simp only [isOtherChatter, Bool.and_eq_true, Bool.not_eq_eq_eq_not, Bool.not_true,
      decide_eq_false_iff_not] at hoth
    obtain ⟨⟨⟨⟨⟨⟨⟨g1, g2⟩, g3⟩, g4⟩, g5⟩, g6⟩, g7⟩, g8⟩ := hoth
    unfold handleGameTurn
    dsimp only
    rw [hgs]
    dsimp only
    rw [g1]
    simp only [Bool.false_eq_true, if_false]
    rw [if_neg g2, if_neg g3, if_neg g4, if_neg g5, if_neg g6]
    rw [g7]
    simp only [Bool.false_eq_true, if_false]
    have hadm : (decide (pyStrip message_str = "admin end turtle") && adm) = false := by
      simp [g8]
    rw [hadm]
    simp only [Bool.false_eq_true, if_false]
    rw [hc]
    simp

/-- Claim C8 witness: the amended theorem applied to a concrete accepted
submission, which does reset the timer. -/
theorem C8_timer_reset_behaviour_witness :
    Eff.timerReset ∈ (handleGameTurn envA oracleOff (fun _ => 0) storeA "g" "u"
      "海龟汤提问 他高兴吗" false).2 :=
  (C8_timer_reset_behaviour envA oracleOff (fun _ => 0) storeA "g" "u"
    "海龟汤提问 他高兴吗" false gsA rfl rfl).2.2.1 (by decide)

end TurtleSoup
